import Mathlib

/-!
Verification development for the IAM user-lifecycle repository
(scripts/python/compliance_audit.py and scripts/python/iam_provisioner.py).

The Python modules are shallowly embedded: datetimes are epoch seconds
(`Int`), `timedelta.days` is floor division by 86400, Python `float`
arithmetic on the small integer ratios appearing here is modelled exactly
by `ℚ` (every value involved is exactly representable), stateful methods
are explicit state passing, raised exceptions are `Except`/`Option`
values, and AWS collaborator calls are an environment of step outcomes
plus an explicit effect trace.
-/

/-! ## compliance_audit.py : enums and data classes -/

/-- Embeds `class Severity(Enum)`. -/
inductive Severity
  | critical
  | high
  | medium
  | low
  | info
deriving DecidableEq, Repr, BEq

/-- Embeds `class ComplianceStatus(Enum)`. -/
inductive ComplianceStatus
  | compliant
  | nonCompliant
  | notApplicable
deriving DecidableEq, Repr, BEq

/-- Heterogeneous values stored in a Finding's `details` dict. -/
inductive DetailValue
  | str (s : String)
  | int (n : Int)
  | bool (b : Bool)
  | strList (l : List String)
deriving DecidableEq, Repr

/-- Embeds `@dataclass class Finding`. -/
structure Finding where
  rule_id : String
  rule_name : String
  resource_type : String
  resource_id : String
  severity : Severity
  status : ComplianceStatus
  description : String
  recommendation : String
  details : List (String × DetailValue)
deriving DecidableEq, Repr

/-- Embeds `@dataclass class AuditReport`. `scan_timestamp` is the epoch
second at which the report was generated (Python stores its isoformat
string). `compliance_score` is the exact rational value of the Python
float computation, which involves only exactly-representable ratios in
the cases proved below. -/
structure AuditReport where
  scan_timestamp : Int
  total_users : Nat
  total_findings : Nat
  critical_count : Nat
  high_count : Nat
  medium_count : Nat
  low_count : Nat
  compliance_score : ℚ
  findings : List Finding
deriving DecidableEq, Repr

/-! ## compliance_audit.py : configuration and identity records -/

def MAX_PASSWORD_AGE_DAYS : Int := 90
def MAX_ACCESS_KEY_AGE_DAYS : Int := 90
def MAX_UNUSED_DAYS : Int := 45

/-- One entry of a user's `AccessKeys` list. `createDate` is epoch seconds. -/
structure AccessKey where
  accessKeyId : String
  status : String
  createDate : Int
deriving DecidableEq, Repr

/-- One entry of a user's `AttachedPolicies` list. -/
structure AttachedPolicy where
  policyName : String
  policyArn : String
deriving DecidableEq, Repr

/-- Embeds the enriched IAM user dict consumed by the audit checks.
`passwordLastUsed` is `none` when the Python value is `None`; MFA devices
are kept as their serial numbers. -/
structure IAMUser where
  userName : String
  userId : String
  createDate : Int
  passwordLastUsed : Option Int
  mfaDevices : List String
  accessKeys : List AccessKey
  attachedPolicies : List AttachedPolicy
  groups : List String
deriving DecidableEq, Repr

/-- Embeds `(now - t).days` for timezone-aware datetimes: the whole-day
floor of the elapsed seconds (Python's `timedelta.days` floors). -/
def daysBetween (now t : Int) : Int := (now - t).fdiv 86400

/-! ## compliance_audit.py : per-identity checks

Each `_check_*` method appends findings to `self.findings`; here each
check returns the list of findings it appends, in append order. -/

/-- Embeds `_check_mfa_enabled` (CIS 1.2). -/
def check_mfa_enabled (user : IAMUser) : List Finding :=
  let has_mfa := user.mfaDevices.length > 0
  let has_console := user.passwordLastUsed.isSome
  if has_console && !has_mfa then
    [{ rule_id := "CIS-1.2"
     , rule_name := "MFA for Console Users"
     , resource_type := "IAM User"
     , resource_id := user.userName
     , severity := Severity.high
     , status := ComplianceStatus.nonCompliant
     , description := "User " ++ user.userName ++ " has console access but MFA is not enabled"
     , recommendation := "Enable MFA for this user immediately"
     , details := [("has_console_access", DetailValue.bool true), ("mfa_enabled", DetailValue.bool false)] }]
  else []

/-- The finding `_check_access_key_age` emits for one offending key. -/
def key_age_finding (now : Int) (username : String) (key : AccessKey) : Finding :=
  let age_days := daysBetween now key.createDate
  { rule_id := "CIS-1.4"
  , rule_name := "Access Key Rotation"
  , resource_type := "IAM Access Key"
  , resource_id := username ++ "/" ++ key.accessKeyId
  , severity := Severity.medium
  , status := ComplianceStatus.nonCompliant
  , description := "Access key is " ++ toString age_days ++ " days old (max: " ++ toString MAX_ACCESS_KEY_AGE_DAYS ++ ")"
  , recommendation := "Rotate access key immediately"
  , details := [("key_age_days", DetailValue.int age_days), ("threshold", DetailValue.int MAX_ACCESS_KEY_AGE_DAYS)] }

/-- Embeds `_check_access_key_age` (CIS 1.4): skip non-Active keys
(`continue`), then emit one finding per key whose whole-day age strictly
exceeds `MAX_ACCESS_KEY_AGE_DAYS`. -/
def check_access_key_age (now : Int) (user : IAMUser) : List Finding :=
  user.accessKeys.filterMap fun key =>
    if key.status != "Active" then none
    else if daysBetween now key.createDate > MAX_ACCESS_KEY_AGE_DAYS then
      some (key_age_finding now user.userName key)
    else none

/-- Embeds `_check_unused_credentials` (CIS 1.3). -/
def check_unused_credentials (now : Int) (user : IAMUser) : List Finding :=
  match user.passwordLastUsed with
  | none => []
  | some last_used =>
    let days_unused := daysBetween now last_used
    if days_unused > MAX_UNUSED_DAYS then
      [{ rule_id := "CIS-1.3"
       , rule_name := "Unused Credentials"
       , resource_type := "IAM User Password"
       , resource_id := user.userName
       , severity := Severity.medium
       , status := ComplianceStatus.nonCompliant
       , description := "Password unused for " ++ toString days_unused ++ " days"
       , recommendation := "Disable or remove unused credentials"
       , details := [("days_unused", DetailValue.int days_unused), ("threshold", DetailValue.int MAX_UNUSED_DAYS)] }]
    else []

/-- Embeds `_check_multiple_access_keys` (BP-1). -/
def check_multiple_access_keys (user : IAMUser) : List Finding :=
  let active_keys := user.accessKeys.filter fun k => k.status == "Active"
  if active_keys.length > 1 then
    [{ rule_id := "BP-1"
     , rule_name := "Multiple Access Keys"
     , resource_type := "IAM User"
     , resource_id := user.userName
     , severity := Severity.low
     , status := ComplianceStatus.nonCompliant
     , description := "User has " ++ toString active_keys.length ++ " active access keys"
     , recommendation := "Remove unused access keys"
     , details := [("active_key_count", DetailValue.int active_keys.length)] }]
  else []

/-- Embeds `_check_direct_policy_attachment` (BP-2). -/
def check_direct_policy_attachment (user : IAMUser) : List Finding :=
  if user.attachedPolicies != [] then
    [{ rule_id := "BP-2"
     , rule_name := "Direct Policy Attachment"
     , resource_type := "IAM User"
     , resource_id := user.userName
     , severity := Severity.low
     , status := ComplianceStatus.nonCompliant
     , description := "User has " ++ toString user.attachedPolicies.length ++ " directly attached policies"
     , recommendation := "Use IAM groups for policy management"
     , details := [("policies", DetailValue.strList (user.attachedPolicies.map AttachedPolicy.policyName))] }]
  else []

def admin_policies : List String := ["AdministratorAccess", "PowerUserAccess"]

/-- Embeds `_check_admin_privileges` (CIS 1.16): one CRITICAL finding per
attached policy whose name is in the fixed admin set. -/
def check_admin_privileges (user : IAMUser) : List Finding :=
  user.attachedPolicies.filterMap fun policy =>
    if admin_policies.contains policy.policyName then
      some { rule_id := "CIS-1.16"
           , rule_name := "Admin Privilege Check"
           , resource_type := "IAM User"
           , resource_id := user.userName
           , severity := Severity.critical
           , status := ComplianceStatus.nonCompliant
           , description := "User has " ++ policy.policyName ++ " attached directly"
           , recommendation := "Use least-privilege policies instead"
           , details := [("policy", DetailValue.str policy.policyName)] }
    else none

/-- Embeds `_check_password_policy` (CIS 1.5-1.11): in demo mode it
appends one simulated weak-password-policy finding. -/
def check_password_policy (demo_mode : Bool) : List Finding :=
  if demo_mode then
    [{ rule_id := "CIS-1.9"
     , rule_name := "Password Reuse Prevention"
     , resource_type := "Account Password Policy"
     , resource_id := "PasswordPolicy"
     , severity := Severity.medium
     , status := ComplianceStatus.nonCompliant
     , description := "Password policy does not prevent reuse of last 24 passwords"
     , recommendation := "Set PasswordReusePrevention to 24"
     , details := [("current_value", DetailValue.int 12), ("required_value", DetailValue.int 24)] }]
  else []

/-- Embeds `_check_root_account` (CIS 1.1): in demo mode it appends one
COMPLIANT informational finding. -/
def check_root_account (demo_mode : Bool) : List Finding :=
  if demo_mode then
    [{ rule_id := "CIS-1.1"
     , rule_name := "Root Account Usage"
     , resource_type := "Root Account"
     , resource_id := "root"
     , severity := Severity.info
     , status := ComplianceStatus.compliant
     , description := "Root account has not been used in the last 90 days"
     , recommendation := "Continue avoiding root account usage"
     , details := [("last_used", DetailValue.str "Never or >90 days")] }]
  else []

/-! ## compliance_audit.py : report generation and full audit -/

/-- Embeds `_generate_report`: severity tallies, the non-compliant count,
and `compliance_score = ((total_checks - non_compliant) / max(total_checks, 1)) * 100`
computed over the auditor's accumulated findings list. -/
def generate_report (now : Int) (findings : List Finding) (total_users : Nat) : AuditReport :=
  let critical := (findings.filter fun f => f.severity == Severity.critical).length
  let high := (findings.filter fun f => f.severity == Severity.high).length
  let medium := (findings.filter fun f => f.severity == Severity.medium).length
  let low := (findings.filter fun f => f.severity == Severity.low).length
  let non_compliant := (findings.filter fun f => f.status == ComplianceStatus.nonCompliant).length
  let total_checks := findings.length
  let compliance_score : ℚ := ((total_checks : ℚ) - (non_compliant : ℚ)) / ((max total_checks 1 : Nat) : ℚ) * 100
  { scan_timestamp := now
  , total_users := total_users
  , total_findings := findings.length
  , critical_count := critical
  , high_count := high
  , medium_count := medium
  , low_count := low
  , compliance_score := compliance_score
  , findings := findings }

/-- Mutable state of `IAMComplianceAuditor`: its mode and its findings
list. -/
structure Auditor where
  demo_mode : Bool
  findings : List Finding
deriving Repr

/-- The findings appended for one user by the six per-identity checks,
in the order `run_full_audit` invokes them. -/
def user_checks (now : Int) (user : IAMUser) : List Finding :=
  check_mfa_enabled user ++ check_access_key_age now user ++
  check_unused_credentials now user ++ check_multiple_access_keys user ++
  check_direct_policy_attachment user ++ check_admin_privileges user

/-- Embeds `run_full_audit`: reset `self.findings = []`, run all
per-identity checks over the users in order, run the two account-level
checks, and generate the report. The user list is the fixture or live
listing returned by `_get_users`; `now` is the single audit time. Returns
the report together with the post-call auditor state. -/
def run_full_audit (a : Auditor) (now : Int) (users : List IAMUser) : AuditReport × Auditor :=
  let a0 : Auditor := { a with findings := [] }
  let a1 : Auditor := users.foldl (fun acc user => { acc with findings := acc.findings ++ user_checks now user }) a0
  let a2 : Auditor := { a1 with findings := a1.findings ++ check_password_policy a1.demo_mode ++ check_root_account a1.demo_mode }
  (generate_report now a2.findings users.length, a2)

/-! ## iam_provisioner.py : configuration and data classes -/

def DEFAULT_GROUP : String := "StandardUsers"
def PASSWORD_LENGTH : Nat := 16

/-- Embeds the `DEPARTMENT_GROUPS` dict; `none` models a key miss. -/
def DEPARTMENT_GROUPS (dept : String) : Option (List String) :=
  if dept = "IT" then some ["IT-Users", "VPN-Access", "CloudWatch-ReadOnly"]
  else if dept = "Finance" then some ["Finance-Users", "Billing-ReadOnly"]
  else if dept = "HR" then some ["HR-Users", "Employee-Records-Access"]
  else if dept = "Engineering" then some ["Engineering-Users", "Developer-Tools", "S3-Dev-Access"]
  else if dept = "Marketing" then some ["Marketing-Users", "Analytics-ReadOnly"]
  else if dept = "Sales" then some ["Sales-Users", "CRM-Access"]
  else none

/-- Embeds the `ROLE_POLICIES` dict; `none` models a key miss. -/
def ROLE_POLICIES (role : String) : Option (List String) :=
  if role = "Developer" then some ["arn:aws:iam::aws:policy/PowerUserAccess"]
  else if role = "Analyst" then some ["arn:aws:iam::aws:policy/ReadOnlyAccess"]
  else if role = "Admin" then some ["arn:aws:iam::aws:policy/AdministratorAccess"]
  else if role = "Manager" then some ["arn:aws:iam::aws:policy/ReadOnlyAccess"]
  else none

/-- Embeds `@dataclass class UserRequest`. -/
structure UserRequest where
  username : String
  email : String
  department : String
  role : String
  first_name : String
  last_name : String
  manager : Option String := none
deriving DecidableEq, Repr

/-- Embeds `UserRequest.validate`. Python's `not all([...])` is true when
any of the four strings is empty; `"@" in self.email` is containment of
the character `@`; `len` counts code points as `String.length` does. -/
def validate (r : UserRequest) : Bool :=
  if r.username == "" || r.email == "" || r.department == "" || r.role == "" then false
  else if !(r.email.toList.contains '@') then false
  else if r.username.length < 3 || r.username.length > 64 then false
  else true

/-- Embeds `@dataclass class ProvisioningResult`. The wall-clock
`timestamp` default (creation time isoformat) is not modelled; no claim
touches it. -/
structure ProvisioningResult where
  username : String
  success : Bool
  message : String
  groups_assigned : List String
  policies_attached : List String
  credentials_location : Option String := none
deriving DecidableEq, Repr

/-! ## iam_provisioner.py : exceptions and the retry decorator -/

/-- The exception classes `create_user` distinguishes: botocore
`ClientError` with its response error code and message, `BotoCoreError`,
`ParamValidationError`, and any other exception. -/
inductive StepError
  | clientError (code : String) (msg : String)
  | botoCoreError (msg : String)
  | paramValidationError (msg : String)
  | otherError (msg : String)
deriving DecidableEq, Repr

/-- The throttling test in `retry_on_throttle`: a `ClientError` whose
code is `Throttling` or `RequestLimitExceeded` (only `ClientError` is
caught by the decorator). -/
def is_throttle_error : StepError → Bool
  | StepError.clientError code _ => code == "Throttling" || code == "RequestLimitExceeded"
  | _ => false

/-- One loop iteration count of `retry_on_throttle`'s `for attempt in
range(max_retries)`. `rem` is the number of remaining iterations
(`max_retries - attempt`), making the recursion structural; the wrapped
call is `f attempt`. Returns the propagated outcome (`none` models
falling off the loop end and returning `None`, reachable only when
`max_retries = 0`) together with the list of backoff delays slept, in
order. The retry condition `attempt < max_retries - 1` over Python ints
is `attempt + 1 < max_retries` here (equivalent for all `Nat` values
reached). -/
def retry_go (f : Nat → Except StepError α) (max_retries : Nat) (base_delay : ℚ) :
    Nat → Nat → Option (Except StepError α) × List ℚ
  | _, 0 => (none, [])
  | attempt, rem + 1 =>
    match f attempt with
    | Except.ok v => (some (Except.ok v), [])
    | Except.error e =>
      if is_throttle_error e && attempt + 1 < max_retries then
        let d := base_delay * 2 ^ attempt
        let rest := retry_go f max_retries base_delay (attempt + 1) rem
        (rest.1, d :: rest.2)
      else (some (Except.error e), [])

/-- Embeds `retry_on_throttle(max_retries, base_delay)` applied to a
step `f`, where `f attempt` is the outcome the wrapped call would have on
that attempt. -/
def retry_on_throttle (max_retries : Nat) (base_delay : ℚ) (f : Nat → Except StepError α) :
    Option (Except StepError α) × List ℚ :=
  retry_go f max_retries base_delay 0 max_retries

/-! ## iam_provisioner.py : group assignment -/

/-- The initial candidate list built by `_assign_groups`:
`[DEFAULT_GROUP]` extended with the department's mapped groups when the
department is in `DEPARTMENT_GROUPS`. -/
def candidate_groups (request : UserRequest) : List String :=
  DEFAULT_GROUP :: (match DEPARTMENT_GROUPS request.department with
    | some gs => gs
    | none => [])

/-- Embeds the `for group in groups:` loop of `_assign_groups` in live
mode, where `exists_group g = false` means `add_user_to_group` raises
`NoSuchEntity` for `g` (any other outcome either succeeds or re-raises
out of the function). Python's list iterator is index-based and
`groups.remove(group)` deletes the first occurrence of the value
(`List.erase`), so the element that shifts into the removed slot is
skipped. `fuel` only bounds the recursion: each iteration increments `i`
by one and never lengthens the list, so the loop performs at most the
initial length many iterations and `fuel = groups.length` makes the two
exit conditions coincide. -/
def assign_groups_loop (exists_group : String → Bool) : Nat → List String → Nat → List String
  | 0, groups, _ => groups
  | fuel + 1, groups, i =>
    if h : i < groups.length then
      let g := groups.get ⟨i, h⟩
      if exists_group g then assign_groups_loop exists_group fuel groups (i + 1)
      else assign_groups_loop exists_group fuel (groups.erase g) (i + 1)
    else groups

/-- Embeds `_assign_groups` in live mode: build the candidate list, run
the group-addition loop with its remove-on-NoSuchEntity behavior, and
return the (mutated) list. -/
def assign_groups (exists_group : String → Bool) (request : UserRequest) : List String :=
  let groups := candidate_groups request
  assign_groups_loop exists_group groups.length groups 0

/-- Embeds `_attach_policies`: the role's mapped policy list, or `[]`
when the role is not in `ROLE_POLICIES`. -/
def attach_policies_result (request : UserRequest) : List String :=
  match ROLE_POLICIES request.role with
  | some ps => ps
  | none => []

/-! ## iam_provisioner.py : password generation -/

/-- The alphabet `string.ascii_letters + string.digits + "!@#$%^&*"`
used by `_generate_password`. -/
def password_alphabet : List Char :=
  "abcdefghijklmnopqrstuvwxyzABCDEFGHIJKLMNOPQRSTUVWXYZ0123456789!@#$%^&*".toList

/-- Embeds `_generate_password` on an explicit sequence of random draws:
`draw` is the `PASSWORD_LENGTH` characters picked from the alphabet, and
`u`/`l`/`d` are the patch characters picked from `string.ascii_uppercase`
/ `string.ascii_lowercase` / `string.digits` (used only when the
corresponding patch fires). The three patches mirror the slicing
`choice + p[1:]`, `p[0] + choice + p[2:]`, `p[:2] + choice + p[3:]`.
`Char.isUpper`/`isLower`/`isDigit` agree with Python's `str` predicates
on this ASCII alphabet. -/
def generate_password (draw : List Char) (u l d : Char) : List Char :=
  let p0 := draw
  let p1 := if p0.any Char.isUpper then p0 else u :: p0.drop 1
  let p2 := if p1.any Char.isLower then p1 else p1.take 1 ++ l :: p1.drop 2
  let p3 := if p2.any Char.isDigit then p2 else p2.take 2 ++ d :: p2.drop 3
  p3

/-! ## iam_provisioner.py : create_user orchestration -/

/-- The side-effecting provisioning operations, recorded in the order
they complete. -/
inductive Effect
  | createIdentity (username : String)
  | assignGroups (groups : List String)
  | attachPolicies (policies : List String)
  | setLoginProfile (username : String)
  | storeCredentials (location : String)
  | sendNotification (username : String)
deriving DecidableEq, Repr

/-- The outcome each collaborator-backed step of `create_user` would
have if reached: `Except.error` models the step raising. In demo mode
every outcome is an `Except.ok` (no step raises). -/
structure StepOutcomes where
  create_iam_user : Except StepError Unit
  assign_groups : Except StepError (List String)
  attach_policies : Except StepError (List String)
  set_login_profile : Except StepError Unit
  store_credentials : Except StepError String
  send_notification : Except StepError Unit

/-- The `except ClientError` branch of `create_user`: the error-code to
human-message table. The fallback is Python's `str(e)`, whose botocore
rendering is free text; it is rendered here as the code and message. -/
def client_error_message (request : UserRequest) (code msg : String) : String :=
  if code = "EntityAlreadyExists" then "User " ++ request.username ++ " already exists"
  else if code = "LimitExceeded" then "IAM user limit reached - contact AWS support"
  else if code = "MalformedPolicyDocument" then "Invalid policy document"
  else if code = "NoSuchEntity" then "Referenced resource not found"
  else if code = "InvalidInput" then "Invalid input: " ++ msg
  else "An error occurred (" ++ code ++ "): " ++ msg

/-- The failure message of `create_user`'s four `except` branches for a
raised error. -/
def error_message (request : UserRequest) : StepError → String
  | StepError.clientError code msg => client_error_message request code msg
  | StepError.botoCoreError msg => "AWS connection error: " ++ msg
  | StepError.paramValidationError msg => "Parameter validation error: " ++ msg
  | StepError.otherError msg => "Unexpected error: " ++ msg

/-- The failure `ProvisioningResult` every `except` branch of
`create_user` returns: `success=False`, the mapped message, and the
`groups_assigned`/`policies_attached` accumulated so far. -/
def failure_result (request : UserRequest) (e : StepError) (groups policies : List String) :
    ProvisioningResult :=
  { username := request.username
  , success := false
  , message := error_message request e
  , groups_assigned := groups
  , policies_attached := policies
  , credentials_location := none }

/-- Embeds `create_user` with the provisioner's `provisioned_users`
state threaded explicitly. Returns the result, the post-call
`provisioned_users` list (the method appends only in its success path),
and the trace of completed side-effecting steps in execution order.
Validation failure returns before any step runs; each `except` branch
returns the failure result with the lists accumulated before the raise
and performs no compensating action. -/
def create_user (env : StepOutcomes) (request : UserRequest)
    (provisioned : List ProvisioningResult) :
    ProvisioningResult × List ProvisioningResult × List Effect :=
  if !(validate request) then
    ({ username := request.username
     , success := false
     , message := "Validation failed"
     , groups_assigned := []
     , policies_attached := []
     , credentials_location := none }, provisioned, [])
  else
    match env.create_iam_user with
    | Except.error e => (failure_result request e [] [], provisioned, [])
    | Except.ok _ =>
      let tr1 := [Effect.createIdentity request.username]
      match env.assign_groups with
      | Except.error e => (failure_result request e [] [], provisioned, tr1)
      | Except.ok groups_assigned =>
        let tr2 := tr1 ++ [Effect.assignGroups groups_assigned]
        match env.attach_policies with
        | Except.error e => (failure_result request e groups_assigned [], provisioned, tr2)
        | Except.ok policies_attached =>
          let tr3 := tr2 ++ [Effect.attachPolicies policies_attached]
          match env.set_login_profile with
          | Except.error e =>
            (failure_result request e groups_assigned policies_attached, provisioned, tr3)
          | Except.ok _ =>
            let tr4 := tr3 ++ [Effect.setLoginProfile request.username]
            match env.store_credentials with
            | Except.error e =>
              (failure_result request e groups_assigned policies_attached, provisioned, tr4)
            | Except.ok creds_location =>
              let tr5 := tr4 ++ [Effect.storeCredentials creds_location]
              match env.send_notification with
              | Except.error e =>
                (failure_result request e groups_assigned policies_attached, provisioned, tr5)
              | Except.ok _ =>
                let result : ProvisioningResult :=
                  { username := request.username
                  , success := true
                  , message := "User provisioned successfully"
                  , groups_assigned := groups_assigned
                  , policies_attached := policies_attached
                  , credentials_location := some creds_location }
                (result, provisioned ++ [result],
                 tr5 ++ [Effect.sendNotification request.username])

/-- The demo-mode step outcomes: no collaborator call raises;
`_assign_groups` returns the full candidate list, `_attach_policies` the
role's table entry, `_store_credentials` the secretsmanager locator. -/
def demo_outcomes (request : UserRequest) : StepOutcomes :=
  { create_iam_user := Except.ok ()
  , assign_groups := Except.ok (candidate_groups request)
  , attach_policies := Except.ok (attach_policies_result request)
  , set_login_profile := Except.ok ()
  , store_credentials :=
      Except.ok ("secretsmanager:iam-credentials/" ++ request.department ++ "/" ++ request.username)
  , send_notification := Except.ok () }

/-! ## iam_provisioner.py : batch processing and summary -/

/-- Embeds the batch loops (`main`'s loop over `test_users` and
`provision_from_csv`): call `create_user` on each request in input order,
collecting the returned results while the provisioner state threads
through. Returns the collected results and the final
`provisioned_users`. -/
def process_batch (env : UserRequest → StepOutcomes) :
    List UserRequest → List ProvisioningResult →
    List ProvisioningResult × List ProvisioningResult
  | [], provisioned => ([], provisioned)
  | request :: rest, provisioned =>
    let step := create_user (env request) request provisioned
    let tail := process_batch env rest step.2.1
    (step.1 :: tail.1, tail.2)

/-- Embeds the dict returned by `get_summary`. `success_rate` is the
exact rational value of the Python percentage. -/
structure Summary where
  total_processed : Nat
  successful : Nat
  failed : Nat
  success_rate : ℚ
  users_provisioned : List String
  users_failed : List (String × String)
deriving DecidableEq, Repr

/-- Embeds `get_summary`, computed over `self.provisioned_users`. -/
def get_summary (provisioned : List ProvisioningResult) : Summary :=
  let successful := provisioned.filter fun r => r.success
  let failed := provisioned.filter fun r => !r.success
  { total_processed := provisioned.length
  , successful := successful.length
  , failed := failed.length
  , success_rate := ((successful.length : ℚ) / ((max provisioned.length 1 : Nat) : ℚ)) * 100
  , users_provisioned := successful.map fun r => r.username
  , users_failed := failed.map fun r => (r.username, r.message) }

/-! ## Fixtures -/

/-- A NON_COMPLIANT finding (mirrors `test_compliance_score_calculation`). -/
def sample_nc_finding : Finding :=
  { rule_id := "TEST-1", rule_name := "Test", resource_type := "User"
  , resource_id := "user1", severity := Severity.high
  , status := ComplianceStatus.nonCompliant
  , description := "Test", recommendation := "Test", details := [] }

/-- A COMPLIANT informational finding (mirrors `test_compliance_score_calculation`). -/
def sample_c_finding : Finding :=
  { rule_id := "TEST-2", rule_name := "Test", resource_type := "User"
  , resource_id := "user2", severity := Severity.info
  , status := ComplianceStatus.compliant
  , description := "Test", recommendation := "Test", details := [] }

/-- A user whose single access key is Active and exactly 91 whole days
old at audit time 0. -/
def user_key_91 : IAMUser :=
  { userName := "rotator", userId := "AIDA1", createDate := -(86400 * 400)
  , passwordLastUsed := none, mfaDevices := []
  , accessKeys := [{ accessKeyId := "AKIA91", status := "Active", createDate := -(86400 * 91) }]
  , attachedPolicies := [], groups := [] }

/-- A user whose single access key is Active and exactly 90 whole days
old at audit time 0. -/
def user_key_90 : IAMUser :=
  { user_key_91 with
    accessKeys := [{ accessKeyId := "AKIA90", status := "Active", createDate := -(86400 * 90) }] }

/-- A user whose single access key is Inactive and 200 days old at audit
time 0. -/
def user_key_inactive : IAMUser :=
  { user_key_91 with
    accessKeys := [{ accessKeyId := "AKIAOLD", status := "Inactive", createDate := -(86400 * 200) }] }

def uname64 : String := String.mk (List.replicate 64 'a')

def uname65 : String := String.mk (List.replicate 65 'a')

/-- A well-formed request except for the username length under test. -/
def req_of_username (u : String) : UserRequest :=
  { username := u, email := "test@company.com", department := "IT"
  , role := "Developer", first_name := "Test", last_name := "User" }

/-- A request whose email lacks an `@` and is otherwise well-formed. -/
def req_no_at : UserRequest :=
  { username := "jsmith", email := "invalid-email", department := "Engineering"
  , role := "Developer", first_name := "John", last_name := "Smith" }

/-! ## Claim theorems -/

/-- C1: for every findings list, `_generate_report` computes the
compliance score as `(total_findings - non_compliant_count) /
max(total_findings, 1) * 100`, counting every emitted finding (compliant
and informational ones included) as a check; for a findings list of
exactly 2 findings, one NON_COMPLIANT and one COMPLIANT, the score is
exactly 50.0. -/
theorem C1_compliance_score_formula :
    (∀ (now : Int) (findings : List Finding) (total_users : Nat),
      (generate_report now findings total_users).compliance_score =
        ((findings.length : ℚ) -
          ((findings.filter fun f => f.status == ComplianceStatus.nonCompliant).length : ℚ)) /
          ((max findings.length 1 : Nat) : ℚ) * 100) ∧
    (generate_report 0 [sample_nc_finding, sample_c_finding] 5).compliance_score = 50 := by
  constructor
  · intro now findings total_users
    rfl
  · simp only [generate_report, sample_nc_finding, sample_c_finding, List.filter, List.length]
    norm_num

/-- C3: `_check_access_key_age` emits exactly one MEDIUM `CIS-1.4`
finding per access key that is Active and whose whole-day age strictly
exceeds 90; an active key of age exactly 91 days yields one finding, one
of age exactly 90 days yields none, and an inactive key yields none
regardless of age. -/
theorem C3_access_key_age_findings :
    (∀ (now : Int) (user : IAMUser),
      check_access_key_age now user =
        (user.accessKeys.filter fun k =>
          k.status == "Active" && decide (MAX_ACCESS_KEY_AGE_DAYS < daysBetween now k.createDate)).map
          (key_age_finding now user.userName) ∧
      (check_access_key_age now user).all
        (fun f => f.rule_id == "CIS-1.4" && f.severity == Severity.medium) = true) ∧
    (check_access_key_age 0 user_key_91).length = 1 ∧
    check_access_key_age 0 user_key_90 = [] ∧
    check_access_key_age 0 user_key_inactive = [] := by
  refine ⟨?_, by decide, by decide, by decide⟩
  intro now user
  have hmap : check_access_key_age now user =
      (user.accessKeys.filter fun k =>
        k.status == "Active" && decide (MAX_ACCESS_KEY_AGE_DAYS < daysBetween now k.createDate)).map
        (key_age_finding now user.userName) := by
    unfold check_access_key_age
    induction user.accessKeys with
    | nil => rfl
    | cons k ks ih =>
      cases hs : (k.status == "Active") with
      | false =>
        have hs' : (k.status != "Active") = true := by simp [bne, hs]
        simp only [List.filterMap_cons, List.filter_cons, hs, hs']
        simpa using ih
      | true =>
        have hs' : (k.status != "Active") = false := by simp [bne, hs]
        by_cases ha : MAX_ACCESS_KEY_AGE_DAYS < daysBetween now k.createDate
        · simp only [List.filterMap_cons, List.filter_cons, hs, hs', gt_iff_lt, ha]
          simpa [ha] using ih
        · simp only [List.filterMap_cons, List.filter_cons, hs, hs', gt_iff_lt, ha]
          simpa [ha] using ih
  refine ⟨hmap, ?_⟩
  rw [hmap]
  simp only [List.all_eq_true, List.mem_map]
  rintro f ⟨k, _, rfl⟩
  rfl

/-- C4: `UserRequest.validate` returns True exactly when the username,
email, department and role are all non-empty, the email contains an `@`,
and the username length lies in `[3, 64]`; usernames of lengths 2 and 65
fail while lengths 3 and 64 pass (other fields well-formed), and an
email lacking `@` fails. -/
theorem C4_validate_characterization :
    (∀ r : UserRequest, validate r = true ↔
      (r.username ≠ "" ∧ r.email ≠ "" ∧ r.department ≠ "" ∧ r.role ≠ "" ∧
       r.email.toList.contains '@' = true ∧ 3 ≤ r.username.length ∧ r.username.length ≤ 64)) ∧
    validate (req_of_username "ab") = false ∧
    validate (req_of_username "abc") = true ∧
    validate (req_of_username uname64) = true ∧
    validate (req_of_username uname65) = false ∧
    validate req_no_at = false := by
  refine ⟨?_, by decide, by decide, by decide, by decide, by decide⟩
  intro r
  constructor
  · intro h
    unfold validate at h
    split_ifs at h with h1 h2 h3
    simp only [Bool.or_eq_true, beq_iff_eq, not_or] at h1
    obtain ⟨⟨⟨hu, he⟩, hd⟩, hr⟩ := h1
    have h2' : r.email.toList.contains '@' = true := by simpa using h2
    simp only [Bool.or_eq_true, decide_eq_true_eq, not_or, not_lt, gt_iff_lt] at h3
    exact ⟨hu, he, hd, hr, h2', h3.1, h3.2⟩
  · rintro ⟨hu, he, hd, hr, hat, hlen3, hlen64⟩
    have hat' : '@' ∈ r.email.data := by simpa using hat
    have c1 : (r.username == "" || r.email == "" || r.department == "" || r.role == "") = false := by
      simp [hu, he, hd, hr]
    have c3 : (decide (r.username.length < 3) || decide (r.username.length > 64)) = false := by
      simp only [Bool.or_eq_false_iff, decide_eq_false_iff_not, not_lt, gt_iff_lt]
      omega
    simp [validate, c1, c3, hat']

/-- A possible 16-character random draw of `_generate_password`: every
character is in the alphabet; the draw contains an uppercase letter and
digits but no lowercase letter. -/
def clobber_draw : List Char := "!Z11111111111111".toList

/-- C2 (refuted by the code): the claim says every execution of
`_generate_password` yields a password containing at least one uppercase
letter, one lowercase letter, and one digit. On the draw `clobber_draw`
the uppercase check passes (position 1 holds the only uppercase letter
`Z`), so position 0 is not patched; the lowercase check then fails and
overwrites position 1 with the lowercase patch character, destroying the
only uppercase letter; the digit check passes. The returned password has
the configured length but no uppercase letter. -/
theorem C2_lowercase_patch_clobbers_uppercase :
    clobber_draw.length = PASSWORD_LENGTH ∧
    clobber_draw.all (fun c => password_alphabet.contains c) = true ∧
    clobber_draw.any Char.isUpper = true ∧
    ('a'.isLower = true ∧ 'A'.isUpper = true ∧ '0'.isDigit = true) ∧
    generate_password clobber_draw 'A' 'a' '0' = "!a11111111111111".toList ∧
    (generate_password clobber_draw 'A' 'a' '0').length = PASSWORD_LENGTH ∧
    (generate_password clobber_draw 'A' 'a' '0').any Char.isUpper = false := by
  decide

/-- A request failing validation: username of length 2 and an email with
no `@` (mirrors `test_create_user_invalid_request`). -/
def invalid_request : UserRequest :=
  { username := "ab", email := "invalid", department := "IT"
  , role := "Developer", first_name := "", last_name := "" }

/-- A request passing validation (mirrors `test_create_user_demo_mode`). -/
def valid_request : UserRequest :=
  { username := "testuser", email := "test@company.com", department := "IT"
  , role := "Developer", first_name := "Test", last_name := "User" }

/-- C5: for every request failing validation, `create_user` returns the
failure result (`success=False`, message `Validation failed`, empty
groups and policies) immediately: `provisioned_users` is unchanged and
no provisioning side effect is performed (empty effect trace). -/
theorem C5_validation_failure_short_circuits :
    ∀ (env : StepOutcomes) (request : UserRequest) (provisioned : List ProvisioningResult),
      validate request = false →
      create_user env request provisioned =
        ({ username := request.username
         , success := false
         , message := "Validation failed"
         , groups_assigned := []
         , policies_attached := []
         , credentials_location := none }, provisioned, []) := by
  intro env request provisioned h
  simp [create_user, h]

/-- Witness for C5 at the concrete invalid request in demo mode. -/
theorem C5_validation_failure_short_circuits_witness :
    validate invalid_request = false ∧
    create_user (demo_outcomes invalid_request) invalid_request [] =
      ({ username := "ab"
       , success := false
       , message := "Validation failed"
       , groups_assigned := []
       , policies_attached := []
       , credentials_location := none }, [], []) :=
  ⟨by decide,
   C5_validation_failure_short_circuits (demo_outcomes invalid_request) invalid_request []
     (by decide)⟩

/-- C6: for every request passing validation, a failure raised by any
downstream step makes `create_user` return a failure result carrying
exactly the `groups_assigned`/`policies_attached` accumulated before the
failing step, with `provisioned_users` unchanged and the effect trace
being exactly the steps completed before the failure (no compensating
rollback effect is appended). -/
theorem C6_downstream_failure_partial_progress :
    ∀ (env : StepOutcomes) (request : UserRequest) (provisioned : List ProvisioningResult),
      validate request = true →
      ((∀ e, env.create_iam_user = Except.error e →
          create_user env request provisioned =
            (failure_result request e [] [], provisioned, [])) ∧
       (∀ e, env.create_iam_user = Except.ok () → env.assign_groups = Except.error e →
          create_user env request provisioned =
            (failure_result request e [] [], provisioned,
             [Effect.createIdentity request.username])) ∧
       (∀ e groups, env.create_iam_user = Except.ok () → env.assign_groups = Except.ok groups →
          env.attach_policies = Except.error e →
          create_user env request provisioned =
            (failure_result request e groups [], provisioned,
             [Effect.createIdentity request.username, Effect.assignGroups groups])) ∧
       (∀ e groups policies, env.create_iam_user = Except.ok () →
          env.assign_groups = Except.ok groups → env.attach_policies = Except.ok policies →
          env.set_login_profile = Except.error e →
          create_user env request provisioned =
            (failure_result request e groups policies, provisioned,
             [Effect.createIdentity request.username, Effect.assignGroups groups,
              Effect.attachPolicies policies])) ∧
       (∀ e groups policies, env.create_iam_user = Except.ok () →
          env.assign_groups = Except.ok groups → env.attach_policies = Except.ok policies →
          env.set_login_profile = Except.ok () → env.store_credentials = Except.error e →
          create_user env request provisioned =
            (failure_result request e groups policies, provisioned,
             [Effect.createIdentity request.username, Effect.assignGroups groups,
              Effect.attachPolicies policies, Effect.setLoginProfile request.username])) ∧
       (∀ e groups policies loc, env.create_iam_user = Except.ok () →
          env.assign_groups = Except.ok groups → env.attach_policies = Except.ok policies →
          env.set_login_profile = Except.ok () → env.store_credentials = Except.ok loc →
          env.send_notification = Except.error e →
          create_user env request provisioned =
            (failure_result request e groups policies, provisioned,
             [Effect.createIdentity request.username, Effect.assignGroups groups,
              Effect.attachPolicies policies, Effect.setLoginProfile request.username,
              Effect.storeCredentials loc]))) := by
  intro env request provisioned hv
  refine ⟨?_, ?_, ?_, ?_, ?_, ?_⟩
  · intro e h1
    simp [create_user, hv, h1]
  · intro e h1 h2
    simp [create_user, hv, h1, h2]
  · intro e groups h1 h2 h3
    simp [create_user, hv, h1, h2, h3]
  · intro e groups policies h1 h2 h3 h4
    simp [create_user, hv, h1, h2, h3, h4]
  · intro e groups policies h1 h2 h3 h4 h5
    simp [create_user, hv, h1, h2, h3, h4, h5]
  · intro e groups policies loc h1 h2 h3 h4 h5 h6
    simp [create_user, hv, h1, h2, h3, h4, h5, h6]

/-- Demo-mode outcomes for `valid_request` except that attaching
policies raises `LimitExceeded`. -/
def attach_fail_env : StepOutcomes :=
  { demo_outcomes valid_request with
    attach_policies := Except.error (StepError.clientError "LimitExceeded" "limit") }

/-- Witness for C6: with every step before policy attachment succeeding
and policy attachment raising, the result carries the assigned groups,
empty policies, and the trace of the two completed steps. -/
theorem C6_downstream_failure_partial_progress_witness :
    validate valid_request = true ∧
    create_user attach_fail_env valid_request [] =
      (failure_result valid_request (StepError.clientError "LimitExceeded" "limit")
        ["StandardUsers", "IT-Users", "VPN-Access", "CloudWatch-ReadOnly"] [],
       [],
       [Effect.createIdentity "testuser",
        Effect.assignGroups ["StandardUsers", "IT-Users", "VPN-Access", "CloudWatch-ReadOnly"]]) :=
  ⟨by decide,
   (C6_downstream_failure_partial_progress attach_fail_env valid_request [] (by decide)).2.2.1
     (StepError.clientError "LimitExceeded" "limit")
     ["StandardUsers", "IT-Users", "VPN-Access", "CloudWatch-ReadOnly"] rfl rfl rfl⟩

/-- C7 (refuted by the code): the claim says every per-request result,
success or failure, is appended to `provisioned_users`, so `get_summary`
counts failures. In the code only the success path of `create_user`
appends: processing one valid and one invalid request in demo mode
produces one failed result in the collected batch results, yet
`provisioned_users` holds only the success and `get_summary` reports
`failed = 0` and `total_processed = 1`. -/
theorem C7_failed_results_never_recorded :
    ((process_batch demo_outcomes [valid_request, invalid_request] []).1.filter
        fun r => !r.success).length = 1 ∧
    ((process_batch demo_outcomes [valid_request, invalid_request] []).2.map
        fun r => r.username) = ["testuser"] ∧
    (get_summary (process_batch demo_outcomes [valid_request, invalid_request] []).2).failed = 0 ∧
    (get_summary (process_batch demo_outcomes [valid_request, invalid_request] []).2).total_processed = 1 ∧
    (get_summary (process_batch demo_outcomes [valid_request, invalid_request] []).2).users_failed = [] := by
  refine ⟨by decide, by decide, ?_, ?_, ?_⟩ <;> decide

/-- An Engineering-department request (mirrors
`test_assign_groups_for_engineering`). -/
def engineering_request : UserRequest :=
  { username := "engineer", email := "engineer@company.com", department := "Engineering"
  , role := "Developer", first_name := "Test", last_name := "Engineer" }

/-- A collaborator report in which the two adjacent candidate groups
`Engineering-Users` and `Developer-Tools` do not exist. -/
def missing_two : String → Bool :=
  fun g => !(g == "Engineering-Users" || g == "Developer-Tools")

/-- C8 (refuted by the code): the claim says every group the
collaborator reports as non-existent is excluded from the final assigned
list. Because `_assign_groups` removes from the list it is iterating,
removing `Engineering-Users` shifts `Developer-Tools` into the removed
slot and the iterator skips it, so `Developer-Tools` — also reported
non-existent — remains in the returned list. -/
theorem C8_adjacent_missing_group_retained :
    candidate_groups engineering_request =
      ["StandardUsers", "Engineering-Users", "Developer-Tools", "S3-Dev-Access"] ∧
    missing_two "Developer-Tools" = false ∧
    assign_groups missing_two engineering_request =
      ["StandardUsers", "Developer-Tools", "S3-Dev-Access"] ∧
    (assign_groups missing_two engineering_request).contains "Developer-Tools" = true := by
  refine ⟨by decide, by decide, ?_, ?_⟩ <;> decide

/-- C9: with the decorator's defaults (`max_retries = 3`), a wrapped
step that succeeds on an attempt returns its value unchanged (after
backoff delays `base_delay * 2^attempt` for each preceding throttled
attempt); a throttling failure is retried, and a failure on the final
attempt — throttling or not — propagates untouched after delays
`[base_delay * 2^0, base_delay * 2^1]`; a non-throttling failure
propagates immediately with no retry and no delay. -/
theorem C9_retry_on_throttle_behavior :
    ∀ (f : Nat → Except StepError Nat) (b : ℚ),
      ((∀ v, f 0 = Except.ok v →
          retry_on_throttle 3 b f = (some (Except.ok v), [])) ∧
       (∀ e, f 0 = Except.error e → is_throttle_error e = false →
          retry_on_throttle 3 b f = (some (Except.error e), [])) ∧
       (∀ e0 v, f 0 = Except.error e0 → is_throttle_error e0 = true →
          f 1 = Except.ok v →
          retry_on_throttle 3 b f = (some (Except.ok v), [b * 2 ^ 0])) ∧
       (∀ e0 e1, f 0 = Except.error e0 → is_throttle_error e0 = true →
          f 1 = Except.error e1 → is_throttle_error e1 = false →
          retry_on_throttle 3 b f = (some (Except.error e1), [b * 2 ^ 0])) ∧
       (∀ e0 e1 v, f 0 = Except.error e0 → is_throttle_error e0 = true →
          f 1 = Except.error e1 → is_throttle_error e1 = true →
          f 2 = Except.ok v →
          retry_on_throttle 3 b f = (some (Except.ok v), [b * 2 ^ 0, b * 2 ^ 1])) ∧
       (∀ e0 e1 e2, f 0 = Except.error e0 → is_throttle_error e0 = true →
          f 1 = Except.error e1 → is_throttle_error e1 = true →
          f 2 = Except.error e2 →
          retry_on_throttle 3 b f = (some (Except.error e2), [b * 2 ^ 0, b * 2 ^ 1]))) := by
  intro f b
  refine ⟨?_, ?_, ?_, ?_, ?_, ?_⟩
  · intro v h0
    simp [retry_on_throttle, retry_go, h0]
  · intro e h0 ht
    simp [retry_on_throttle, retry_go, h0, ht]
  · intro e0 v h0 ht0 h1
    simp [retry_on_throttle, retry_go, h0, ht0, h1]
  · intro e0 e1 h0 ht0 h1 ht1
    simp [retry_on_throttle, retry_go, h0, ht0, h1, ht1]
  · intro e0 e1 v h0 ht0 h1 ht1 h2
    simp [retry_on_throttle, retry_go, h0, ht0, h1, ht1, h2]
  · intro e0 e1 e2 h0 ht0 h1 ht1 h2
    simp [retry_on_throttle, retry_go, h0, ht0, h1, ht1, h2]

/-- A step that is throttled on attempts 0 and 1, then fails with a
connection error on the final attempt. -/
def throttled_then_down : Nat → Except StepError Nat :=
  fun attempt =>
    if attempt = 0 then Except.error (StepError.clientError "Throttling" "slow down")
    else if attempt = 1 then Except.error (StepError.clientError "RequestLimitExceeded" "limit")
    else Except.error (StepError.botoCoreError "connection closed")

/-- Witness for C9: two throttled attempts with delays 1 and 2 seconds,
then the final attempt's non-throttling failure is propagated untouched. -/
theorem C9_retry_on_throttle_behavior_witness :
    retry_on_throttle 3 1 throttled_then_down =
      (some (Except.error (StepError.botoCoreError "connection closed")),
       [1 * 2 ^ 0, 1 * 2 ^ 1]) :=
  ((C9_retry_on_throttle_behavior throttled_then_down 1).2.2.2.2.2)
    (StepError.clientError "Throttling" "slow down")
    (StepError.clientError "RequestLimitExceeded" "limit")
    (StepError.botoCoreError "connection closed")
    rfl (by decide) rfl (by decide) rfl

/-- Auxiliary: the per-user audit fold leaves the auditor's mode
unchanged. -/
theorem foldl_user_checks_demo_mode (now : Int) :
    ∀ (users : List IAMUser) (acc : Auditor),
      (users.foldl (fun acc user => { acc with findings := acc.findings ++ user_checks now user })
        acc).demo_mode = acc.demo_mode := by
  intro users
  induction users with
  | nil => intro acc; rfl
  | cons u us ih => intro acc; simpa using ih _

/-- Auxiliary: `run_full_audit` depends only on the auditor's mode — the
pre-call findings list is discarded by the `self.findings = []` reset. -/
theorem run_full_audit_ignores_prior_findings (a b : Auditor) (h : a.demo_mode = b.demo_mode)
    (now : Int) (users : List IAMUser) :
    run_full_audit a now users = run_full_audit b now users := by
  obtain ⟨da, fa⟩ := a
  obtain ⟨db, fb⟩ := b
  simp only at h
  subst h
  rfl

/-- C10: `run_full_audit` assigns a fresh empty findings list before
scanning, so findings never accumulate across runs: a second call on the
post-call auditor state, over the same users and the same audit time,
produces a report with the same findings list, the same per-severity
counts, and the same compliance score. -/
theorem C10_consecutive_audits_equal :
    ∀ (a : Auditor) (now : Int) (users : List IAMUser),
      (run_full_audit (run_full_audit a now users).2 now users).1.findings =
        (run_full_audit a now users).1.findings ∧
      (run_full_audit (run_full_audit a now users).2 now users).1.total_findings =
        (run_full_audit a now users).1.total_findings ∧
      (run_full_audit (run_full_audit a now users).2 now users).1.critical_count =
        (run_full_audit a now users).1.critical_count ∧
      (run_full_audit (run_full_audit a now users).2 now users).1.high_count =
        (run_full_audit a now users).1.high_count ∧
      (run_full_audit (run_full_audit a now users).2 now users).1.medium_count =
        (run_full_audit a now users).1.medium_count ∧
      (run_full_audit (run_full_audit a now users).2 now users).1.low_count =
        (run_full_audit a now users).1.low_count ∧
      (run_full_audit (run_full_audit a now users).2 now users).1.compliance_score =
        (run_full_audit a now users).1.compliance_score := by
  intro a now users
  have hdemo : (run_full_audit a now users).2.demo_mode = a.demo_mode := by
    obtain ⟨d, fs⟩ := a
    simp only [run_full_audit]
    exact foldl_user_checks_demo_mode now users _
  have h := run_full_audit_ignores_prior_findings (run_full_audit a now users).2 a hdemo now users
  rw [h]
  exact ⟨rfl, rfl, rfl, rfl, rfl, rfl, rfl⟩
